import Mathlib

/-!
Verification of the portfolio backend service (`main.py`): a small FastAPI
proxy over the GitHub REST API plus a diagnostics endpoint.

The embedding models each request handler as a pure function from the
upstream HTTP outcome (and, for `/test`, the environment/probe outcome) to
an HTTP-level result.  JSON objects are modelled as structures whose fields
are `Option`-typed: `none` models an absent field (the Python `dict.get` method
returns `None` there, and for the string fields of the GitHub payloads a
JSON `null` is likewise delivered as `None`).  Machine strings are Lean
`String`s; Python string slicing `s[:n]` is `List.take n` on the code
points; Python string comparison is code-point lexicographic, embedded
below as `lexLe`.
-/

/-- An HTTP error response as produced by raising `HTTPException(status_code, detail)`:
the framework turns it into a response with that status and body `{"detail": detail}`. -/
structure HttpError where
  status : Nat
  detail : String
deriving DecidableEq, Repr

/-- Outcome of a request handler: a successful JSON body, or an `HttpError`. -/
abbrev HttpResult (α : Type) := Except HttpError α

/-- Outcome of the upstream `requests.get` call, as observed by the handlers:
either a transport-level failure (`requests.RequestException` raised by the
call itself: DNS, refused connection, timeout), carrying the exception text,
or an HTTP response with a status code and parsed JSON body.  `errText`
models `str(e)` of the `requests.HTTPError` that `raise_for_status` raises
for this response when the status is in 400..599. -/
inductive UpstreamResult (α : Type) where
  | transportError (msg : String)
  | response (status : Nat) (body : α) (errText : String)
deriving DecidableEq, Repr

/-- The method `requests.Response.raise_for_status` raises an `HTTPError` exactly when
`400 <= status_code < 600`; all other status codes pass through silently. -/
def raise_for_status_raises (status : Nat) : Bool :=
  decide (400 ≤ status) && decide (status < 600)

/-- A raw GitHub user object, restricted to the fields `github_profile` reads.
`none` models an absent field; for these string/number fields a JSON `null`
is also delivered as Python `None` by `dict.get`, so it is modelled by `none`
as well.  `some ""` models a field that is present and equal to the empty
string. -/
structure RawUser where
  login : Option String
  name : Option String
  avatar_url : Option String
  bio : Option String
  location : Option String
  blog : Option String
  html_url : Option String
  followers : Option Int
  following : Option Int
  public_repos : Option Int
  company : Option String
  twitter_username : Option String
deriving DecidableEq, Repr

/-- The `UserProfile` output shape built by `github_profile` (main.py lines 36-49). -/
structure UserProfile where
  login : Option String
  name : Option String
  avatar_url : Option String
  bio : Option String
  location : Option String
  blog : Option String
  html_url : Option String
  followers : Option Int
  following : Option Int
  public_repos : Option Int
  company : Option String
  twitter_username : Option String
deriving DecidableEq, Repr

/-- The Python expression `a or b` applied to optional strings (the result of `dict.get`):
`None` and the empty string are falsy, so both fall through to `b`; any
non-empty string is returned unchanged. -/
def pyOr (a b : Option String) : Option String :=
  match a with
  | none => b
  | some s => if s = "" then b else some s

/-- The field selection of main.py lines 36-49: every field is copied
verbatim except `name`, which is `data.get("name") or data.get("login")`. -/
def mapProfile (data : RawUser) : UserProfile :=
  { login := data.login
    name := pyOr data.name data.login
    avatar_url := data.avatar_url
    bio := data.bio
    location := data.location
    blog := data.blog
    html_url := data.html_url
    followers := data.followers
    following := data.following
    public_repos := data.public_repos
    company := data.company
    twitter_username := data.twitter_username }

/-- The `/api/github/profile` handler (main.py lines 25-52) as a function of
the upstream outcome.  A transport failure is caught by the
`except requests.RequestException` clause and mapped to 502.  On a response,
status 404 raises `HTTPException(404, "GitHub user not found")` (a FastAPI
exception, not caught by the `except` clause); otherwise `raise_for_status`
raises for statuses 400..599, and that `HTTPError` is a `RequestException`,
so it is caught and mapped to 502 with the exception text; any remaining
status reaches the mapping code and returns the profile. -/
def github_profile (u : UpstreamResult RawUser) : HttpResult UserProfile :=
  match u with
  | .transportError msg => .error ⟨502, "GitHub API error: " ++ msg⟩
  | .response status body errText =>
    if status = 404 then
      .error ⟨404, "GitHub user not found"⟩
    else if raise_for_status_raises status then
      .error ⟨502, "GitHub API error: " ++ errText⟩
    else
      .ok (mapProfile body)

/-! ### The `/test` diagnostics endpoint -/

deriving instance DecidableEq for Except

/-- A handle to the optional data store (`db` from the `database` module):
`name` is `db.name` when the attribute exists (`hasattr` of the name attribute), and
`collections` is the outcome of `db.list_collection_names()` — a list of
names, or the text of the exception it raised. -/
structure DbHandle where
  name : Option String
  collections : Except String (List String)
deriving DecidableEq, Repr

/-- Outcome of `from database import db` together with the probe of `db`:
the import can fail with `ImportError`, the probe can raise some other
exception (carrying its text), or it yields `db` — which may be `None`. -/
inductive ImportOutcome where
  | importError
  | fault (msg : String)
  | ok (db : Option DbHandle)
deriving DecidableEq, Repr

/-- Environment state the `/test` endpoint observes: the import/probe
outcome and whether the `DATABASE_URL` / `DATABASE_NAME` environment
variables are set (Python truthiness of `os.getenv`: set and non-empty). -/
structure TestEnv where
  imp : ImportOutcome
  urlSet : Bool
  nameSet : Bool
deriving DecidableEq, Repr

/-- The response dictionary built by `test_database` (main.py lines 92-99
initialize it; probe code then mutates it).  `database_url` and
`database_name` start as `None`, hence `Option String`. -/
structure DiagResponse where
  backend : String
  database : String
  database_url : Option String
  database_name : Option String
  connection_status : String
  collections : List String
deriving DecidableEq, Repr

/-- Python `s[:n]` on a string: take the first `n` code points. -/
def pySlice (n : Nat) (s : String) : String :=
  ⟨s.data.take n⟩

/-- The `/test` handler body (main.py lines 89-131), with every mutation of
the `response` dict made explicit.  All exception paths are represented in
`ImportOutcome` / `DbHandle.collections`, mirroring the `try/except` blocks
that catch them; after the probe, lines 128-129 unconditionally overwrite
`database_url` and `database_name` with the environment-variable presence
flags. -/
def test_database (env : TestEnv) : DiagResponse :=
  let response : DiagResponse :=
    { backend := "✅ Running"
      database := "❌ Not Available"
      database_url := none
      database_name := none
      connection_status := "Not Connected"
      collections := [] }
  let response :=
    match env.imp with
    | .ok (some db) =>
      let response :=
        { response with
            database := "✅ Available"
            database_url := some "✅ Configured"
            database_name := some (db.name.getD "✅ Connected")
            connection_status := "Connected" }
      match db.collections with
      | .ok cs =>
        { response with collections := cs.take 10, database := "✅ Connected & Working" }
      | .error e =>
        { response with database := "⚠️  Connected but Error: " ++ pySlice 50 e }
    | .ok none =>
      { response with database := "⚠️  Available but not initialized" }
    | .importError =>
      { response with database := "❌ Database module not found (run enable-database first)" }
    | .fault msg =>
      { response with database := "❌ Error: " ++ pySlice 50 msg }
  { response with
      database_url := some (if env.urlSet then "✅ Set" else "❌ Not Set")
      database_name := some (if env.nameSet then "✅ Set" else "❌ Not Set") }

/-- The `/test` endpoint at the HTTP level: the handler catches every fault
(there is no uncaught raise in its body, as `test_database` being a total
function over `TestEnv` records), so FastAPI always serializes the returned
dict with status 200. -/
def test_database_endpoint (env : TestEnv) : HttpResult DiagResponse :=
  .ok (test_database env)

/-! ### The `/api/github/repos` endpoint -/

/-- A raw GitHub repository object, restricted to the fields `github_repos`
reads.  `none` models an absent field (Python `dict.get` then returns the
supplied default, or `None`). -/
structure RawRepo where
  name : Option String
  full_name : Option String
  description : Option String
  html_url : Option String
  homepage : Option String
  language : Option String
  stargazers_count : Option Int
  fork : Option Bool
  topics : Option (List String)
  updated_at : Option String
deriving DecidableEq, Repr

/-- The mapped repository shape built by the comprehension at main.py
lines 67-82: `stargazers_count` defaults to 0, `fork` to `False`, `topics`
to `[]`; all other fields are copied verbatim (possibly `None`). -/
structure Repo where
  name : Option String
  full_name : Option String
  description : Option String
  html_url : Option String
  homepage : Option String
  language : Option String
  stargazers_count : Int
  fork : Bool
  topics : List String
  updated_at : Option String
deriving DecidableEq, Repr

/-- The per-item mapping of the comprehension at main.py lines 68-79. -/
def mapRepo (repo : RawRepo) : Repo :=
  { name := repo.name
    full_name := repo.full_name
    description := repo.description
    html_url := repo.html_url
    homepage := repo.homepage
    language := repo.language
    stargazers_count := repo.stargazers_count.getD 0
    fork := repo.fork.getD false
    topics := repo.topics.getD []
    updated_at := repo.updated_at }

/-- The filter condition of the comprehension (main.py line 81):
`include_forks or not repo.get("fork", False)`. -/
def keepRepo (include_forks : Bool) (repo : RawRepo) : Bool :=
  include_forks || !(repo.fork.getD false)

/-- The `filtered` list of main.py lines 67-82, before the sort. -/
def filtered_repos (include_forks : Bool) (repos : List RawRepo) : List Repo :=
  (repos.filter (keepRepo include_forks)).map mapRepo

/-- The Python `<=` on strings: code-point lexicographic comparison of the
character lists, a strict prefix comparing below its extensions. -/
def lexLe : List Char → List Char → Bool
  | [], _ => true
  | _ :: _, [] => false
  | a :: as, b :: bs => if a = b then lexLe as bs else decide (a < b)

/-- The Python `<=` on the sort-key tuples `(stargazers_count, updated_at or "")`:
compare the integers first, then the strings lexicographically. -/
def tupLe (x y : Int × String) : Bool :=
  decide (x.1 < y.1) || (decide (x.1 = y.1) && lexLe x.2.data y.2.data)

/-- The sort key of main.py line 84: `(x.get("stargazers_count", 0),
x.get("updated_at") or "")`.  On the mapped dicts `stargazers_count` is
always present, and `or ""` turns an absent/`None` `updated_at` into `""`. -/
def sortKey (x : Repo) : Int × String :=
  (x.stargazers_count, x.updated_at.getD "")

/-- The ordering realized by `list.sort(key=..., reverse=True)`: `a` may be
placed before `b` exactly when the key of `a` is greater than or equal to the
key of `b` (the Python sort is stable and `reverse=True` reverses the comparison, not the
list). -/
def repoLe (a b : Repo) : Bool :=
  tupLe (sortKey b) (sortKey a)

/-- The `filtered` list after the in-place stable sort of main.py line 84. -/
def sorted_repos (include_forks : Bool) (repos : List RawRepo) : List Repo :=
  (filtered_repos include_forks repos).mergeSort repoLe

/-- The successful response body of `github_repos` (main.py line 85):
the sorted list truncated to the first `limit` items. -/
def github_repos (include_forks : Bool) (limit : Nat) (repos : List RawRepo) : List Repo :=
  (sorted_repos include_forks repos).take limit

/-- The `/api/github/repos` handler body (main.py lines 60-87) as a function
of the upstream outcome, after parameter validation.  Error mapping is as in
`github_profile`, except there is no special case for 404: `raise_for_status`
maps every 400..599 response, 404 included, to the 502 branch. -/
def github_repos_handler (include_forks : Bool) (limit : Nat)
    (u : UpstreamResult (List RawRepo)) : HttpResult (List Repo) :=
  match u with
  | .transportError msg => .error ⟨502, "GitHub API error: " ++ msg⟩
  | .response status body errText =>
    if raise_for_status_raises status then
      .error ⟨502, "GitHub API error: " ++ errText⟩
    else
      .ok (github_repos include_forks limit body)

/-- The FastAPI validation of `limit: int = Query(6, ge=1, le=50)` (main.py
line 57), modelled from the documented framework behaviour: an omitted
parameter takes the default 6; a value inside [1,50] is passed to the
handler unchanged; a value outside is rejected with a 422 response before
the handler body (and hence the upstream call) runs.  The 422 body is a
structured validation message; its text is modelled by a fixed marker. -/
def validateLimit : Option Int → Except HttpError Nat
  | none => .ok 6
  | some v => if 1 ≤ v ∧ v ≤ 50 then .ok v.toNat else .error ⟨422, "validation error"⟩

/-- The whole `/api/github/repos` endpoint: query validation, then the
handler.  `include_forks` defaults to `False` when omitted. -/
def github_repos_endpoint (limitParam : Option Int) (forksParam : Option Bool)
    (u : UpstreamResult (List RawRepo)) : HttpResult (List Repo) :=
  match validateLimit limitParam with
  | .error e => .error e
  | .ok limit => github_repos_handler (forksParam.getD false) limit u

/-! ### Concrete sample data used by witnesses and counterexamples -/

/-- A non-fork repository with 5 stars, updated 2023-01-01. -/
def rawA : RawRepo :=
  { name := some "alpha", full_name := some "u/alpha", description := none,
    html_url := none, homepage := none, language := none,
    stargazers_count := some 5, fork := some false, topics := some [],
    updated_at := some "2023-01-01T00:00:00Z" }

/-- A fork with 5 stars, updated 2023-06-01. -/
def rawB : RawRepo :=
  { rawA with
      name := some "beta"
      fork := some true
      updated_at := some "2023-06-01T00:00:00Z" }

/-- A non-fork repository with 2 stars, updated 2024-01-01. -/
def rawC : RawRepo :=
  { rawA with
      name := some "gamma"
      stargazers_count := some 2
      updated_at := some "2024-01-01T00:00:00Z" }

/-- A raw user object with `login "octocat"` and no `name` field. -/
def octoUser : RawUser :=
  { login := some "octocat", name := none, avatar_url := none, bio := none,
    location := none, blog := none, html_url := none, followers := some 2,
    following := some 1, public_repos := some 8, company := none,
    twitter_username := none }

/-! ### Order lemmas for the sort comparator -/

theorem lexLe_total (a b : List Char) : (lexLe a b || lexLe b a) = true := by
  induction a generalizing b with
  | nil => simp [lexLe]
  | cons x xs ih =>
    cases b with
    | nil => simp [lexLe]
    | cons y ys =>
      by_cases h : x = y
      · subst h
        simpa [lexLe] using ih ys
      · rcases lt_or_gt_of_ne h with h1 | h1
        · simp [lexLe, h, h1]
        · simp [lexLe, h, Ne.symm h, h1, not_lt_of_lt h1]

theorem lexLe_trans (a b c : List Char) (h1 : lexLe a b = true) (h2 : lexLe b c = true) :
    lexLe a c = true := by
  induction a generalizing b c with
  | nil => simp [lexLe]
  | cons x xs ih =>
    cases b with
    | nil => simp [lexLe] at h1
    | cons y ys =>
      cases c with
      | nil => simp [lexLe] at h2
      | cons z zs =>
        by_cases hxy : x = y <;> by_cases hyz : y = z
        · subst hxy; subst hyz
          simp only [lexLe, if_pos rfl] at h1 h2 ⊢
          exact ih ys zs h1 h2
        · subst hxy
          simp only [lexLe, if_pos rfl, if_neg hyz, decide_eq_true_eq] at h2 ⊢
          simp [hyz, h2]
        · subst hyz
          simp only [lexLe, if_neg hxy, decide_eq_true_eq] at h1
          simp [lexLe, hxy, h1]
        · simp only [lexLe, if_neg hxy, if_neg hyz, decide_eq_true_eq] at h1 h2
          have hxz : x < z := lt_trans h1 h2
          simp [lexLe, ne_of_lt hxz, hxz]

theorem tupLe_total (x y : Int × String) : (tupLe x y || tupLe y x) = true := by
  simp only [tupLe, Bool.or_eq_true, Bool.and_eq_true, decide_eq_true_eq]
  rcases lt_trichotomy x.1 y.1 with h | h | h
  · exact Or.inl (Or.inl h)
  · have := lexLe_total x.2.data y.2.data
    rcases Bool.or_eq_true _ _ |>.mp this with hl | hl
    · exact Or.inl (Or.inr ⟨h, hl⟩)
    · exact Or.inr (Or.inr ⟨h.symm, hl⟩)
  · exact Or.inr (Or.inl h)

theorem tupLe_trans (x y z : Int × String) (h1 : tupLe x y = true) (h2 : tupLe y z = true) :
    tupLe x z = true := by
  simp only [tupLe, Bool.or_eq_true, Bool.and_eq_true, decide_eq_true_eq] at h1 h2 ⊢
  rcases h1 with h1 | ⟨e1, l1⟩ <;> rcases h2 with h2 | ⟨e2, l2⟩
  · exact Or.inl (lt_trans h1 h2)
  · exact Or.inl (e2 ▸ h1)
  · exact Or.inl (e1 ▸ h2)
  · exact Or.inr ⟨e1.trans e2, lexLe_trans _ _ _ l1 l2⟩

theorem repoLe_total (a b : Repo) : (repoLe a b || repoLe b a) = true := by
  simpa [repoLe, Bool.or_comm] using tupLe_total (sortKey a) (sortKey b)

theorem repoLe_trans (a b c : Repo) (h1 : repoLe a b = true) (h2 : repoLe b c = true) :
    repoLe a c = true :=
  tupLe_trans _ _ _ h2 h1

theorem pairwise_sorted_repos (include_forks : Bool) (repos : List RawRepo) :
    (sorted_repos include_forks repos).Pairwise (fun a b => repoLe a b = true) :=
  List.sorted_mergeSort (fun a b c => repoLe_trans a b c) repoLe_total
    (filtered_repos include_forks repos)

/-- CLAIM C1: the sequence returned by the repositories endpoint is sorted
so that for any two adjacent elements `a` (before) and `b` (after), either
`a.stargazers_count > b.stargazers_count`, or the star counts are equal and
`a.updated_at >= b.updated_at` in code-point lexicographic order, with an
absent `updated_at` compared as the empty string. -/
theorem repos_sorted_adjacent (include_forks : Bool) (limit : Nat) (repos : List RawRepo) :
    List.Chain'
      (fun a b => a.stargazers_count > b.stargazers_count ∨
        (a.stargazers_count = b.stargazers_count ∧
          lexLe (b.updated_at.getD "").data (a.updated_at.getD "").data = true))
      (github_repos include_forks limit repos) := by
  have hp := (pairwise_sorted_repos include_forks repos).sublist
    (List.take_sublist limit (sorted_repos include_forks repos))
  refine List.Pairwise.chain' (hp.imp ?_)
  intro a b h
  simp only [repoLe, tupLe, sortKey, Bool.or_eq_true, Bool.and_eq_true,
    decide_eq_true_eq] at h
  rcases h with h | ⟨he, hl⟩
  · exact Or.inl h
  · exact Or.inr ⟨he.symm, hl⟩

/-- CLAIM C2: with `include_forks` false (the default), every element of the
returned sequence has `fork = false`; with `include_forks` true, fork items
are retained — no raw repository is dropped by the filter, so the
mapped form of each appears in the filtered list that feeds the sort. -/
theorem repos_fork_filtering (limit : Nat) (repos : List RawRepo) :
    (∀ x ∈ github_repos false limit repos, x.fork = false) ∧
    (∀ raw ∈ repos, mapRepo raw ∈ filtered_repos true repos) := by
  constructor
  · intro x hx
    have hx1 : x ∈ sorted_repos false repos :=
      List.mem_of_mem_take hx
    have hx2 : x ∈ filtered_repos false repos := by
      simpa [sorted_repos] using hx1
    rcases List.mem_map.mp hx2 with ⟨raw, hraw, rfl⟩
    have hk : keepRepo false raw = true := (List.mem_filter.mp hraw).2
    simp only [keepRepo, Bool.false_or, Bool.not_eq_true'] at hk
    simpa [mapRepo] using hk
  · intro raw hraw
    refine List.mem_map.mpr ⟨raw, List.mem_filter.mpr ⟨hraw, ?_⟩, rfl⟩
    simp [keepRepo]

/-- Witness for C2: on the concrete two-repository list, the non-fork
survives the default filter with `fork = false`, and with
`include_forks = true` the fork `rawB` is retained. -/
theorem repos_fork_filtering_witness :
    (mapRepo rawA).fork = false ∧ mapRepo rawB ∈ filtered_repos true [rawA, rawB] :=
  ⟨(repos_fork_filtering 6 [rawA]).1 (mapRepo rawA)
      (by simp [github_repos, sorted_repos, filtered_repos, keepRepo, rawA, List.mergeSort]),
    (repos_fork_filtering 6 [rawA, rawB]).2 rawB (by simp)⟩

/-- CLAIM C4: for every `limit` accepted by validation (1 ≤ limit ≤ 50), the
returned sequence length is `min limit (number of repositories surviving the
fork filter)`, and the returned sequence is the `limit`-prefix of the fully
sorted list — truncation happens after the sort, not before. -/
theorem repos_limit_truncation (include_forks : Bool) (limit : Nat) (repos : List RawRepo)
    (h1 : 1 ≤ limit) (h2 : limit ≤ 50) :
    (github_repos include_forks limit repos).length
        = min limit (filtered_repos include_forks repos).length ∧
    github_repos include_forks limit repos
        = (sorted_repos include_forks repos).take limit := by
  refine ⟨?_, rfl⟩
  simp [github_repos, sorted_repos]

/-- Witness for C4: at `limit = 1` on a two-survivor list the result has
length `min 1 2 = 1`. -/
theorem repos_limit_truncation_witness :
    (github_repos false 1 [rawA, rawC]).length
        = min 1 (filtered_repos false [rawA, rawC]).length :=
  (repos_limit_truncation false 1 [rawA, rawC] (by decide) (by decide)).1

/-! ### Profile name mapping -/

/-- A raw user whose `name` field is present but equal to the empty string. -/
def emptyNameUser : RawUser :=
  { octoUser with name := some "" }

/-- Counterexample to C3 as stated: for a user whose `name` field is present
but equal to the empty string (Python-falsy), the claim requires the profile
name to equal that upstream `name`, but the expression `data.get("name") or
data.get("login")` falls back to `login`. -/
theorem profile_name_counterexample :
    emptyNameUser.name = some "" ∧
    (mapProfile emptyNameUser).name = some "octocat" ∧
    (mapProfile emptyNameUser).name ≠ emptyNameUser.name := by
  refine ⟨rfl, ?_, ?_⟩ <;> simp [mapProfile, pyOr, emptyNameUser, octoUser]

/-- CLAIM C3 (amended): the profile `name` equals the upstream `name` when
that field is present and non-empty; when it is absent (or `null`, which
`dict.get` also delivers as `None`) or the empty string, `name` falls back
to `login`; in particular a user with no `name` field and `login "octocat"`
yields name `"octocat"`. -/
theorem profile_name_mapping (u : RawUser) :
    (∀ s, u.name = some s → s ≠ "" → (mapProfile u).name = some s) ∧
    ((u.name = none ∨ u.name = some "") → (mapProfile u).name = u.login) ∧
    (mapProfile octoUser).name = some "octocat" := by
  refine ⟨?_, ?_, by simp [mapProfile, pyOr, octoUser]⟩
  · intro s hs hne
    simp [mapProfile, pyOr, hs, hne]
  · rintro (h | h) <;> simp [mapProfile, pyOr, h]

/-- Witness for the amended C3 theorem: a present non-empty name is kept, and
the octocat fallback scenario produces the login. -/
theorem profile_name_mapping_witness :
    (mapProfile { octoUser with name := some "The Octocat" }).name = some "The Octocat" ∧
    (mapProfile octoUser).name = octoUser.login :=
  ⟨(profile_name_mapping { octoUser with name := some "The Octocat" }).1
      "The Octocat" rfl (by decide),
    (profile_name_mapping octoUser).2.1 (Or.inl rfl)⟩

/-- CLAIM C9: the name fallback triggers on any falsy value of `name` — a
present-but-empty string as well as an absent (or `null`) field — so the
profile name equals `login` in both cases. -/
theorem profile_name_falsy_fallback (u : RawUser)
    (h : u.name = some "" ∨ u.name = none) :
    (mapProfile u).name = u.login := by
  rcases h with h | h <;> simp [mapProfile, pyOr, h]

/-- Witness for C9 at the concrete empty-name user. -/
theorem profile_name_falsy_fallback_witness :
    (mapProfile emptyNameUser).name = emptyNameUser.login :=
  profile_name_falsy_fallback emptyNameUser (Or.inl rfl)

/-! ### Error mapping of the two GitHub endpoints -/

/-- Counterexample to C5 as stated: upstream status 304 is a non-success
(non-2xx) status other than 404, so the claim requires a 502 failure, but
`raise_for_status` only raises for 400..599, so the code proceeds to return
the mapped profile. -/
theorem profile_status_counterexample :
    github_profile (.response 304 octoUser "304 err") = .ok (mapProfile octoUser) := by
  simp [github_profile, raise_for_status_raises]

/-- CLAIM C5 (amended): a transport failure maps to 502 with
`"GitHub API error: <text>"`; upstream 404 maps to 404 with
`"GitHub user not found"`; any other status in 400..599 maps to 502 with
the upstream error text; a status outside 400..599 (which
`raise_for_status` passes through) yields the mapped profile. -/
theorem profile_error_mapping (status : Nat) (body : RawUser) (errText tmsg : String) :
    (github_profile (.transportError tmsg)
        = .error ⟨502, "GitHub API error: " ++ tmsg⟩) ∧
    (status = 404 →
      github_profile (.response status body errText)
        = .error ⟨404, "GitHub user not found"⟩) ∧
    (status ≠ 404 → 400 ≤ status → status < 600 →
      github_profile (.response status body errText)
        = .error ⟨502, "GitHub API error: " ++ errText⟩) ∧
    (¬ (400 ≤ status ∧ status < 600) →
      github_profile (.response status body errText) = .ok (mapProfile body)) := by
  refine ⟨rfl, ?_, ?_, ?_⟩
  · intro h
    simp [github_profile, h]
  · intro h404 h4 h6
    simp [github_profile, h404, raise_for_status_raises, h4, h6]
  · intro h
    have h404 : status ≠ 404 := by intro he; exact h (by omega)
    have hr : raise_for_status_raises status = false := by
      simp only [raise_for_status_raises, Bool.and_eq_false_iff, decide_eq_false_iff_not]
      omega
    simp [github_profile, h404, hr]

/-- Witness for the amended C5 theorem: the 404, 500 and 200 cases at concrete
inputs. -/
theorem profile_error_mapping_witness :
    github_profile (.response 404 octoUser "404 Client Error")
        = .error ⟨404, "GitHub user not found"⟩ ∧
    github_profile (.response 500 octoUser "500 Server Error")
        = .error ⟨502, "GitHub API error: " ++ "500 Server Error"⟩ ∧
    github_profile (.response 200 octoUser "")
        = .ok (mapProfile octoUser) :=
  ⟨(profile_error_mapping 404 octoUser "404 Client Error" "m").2.1 rfl,
    (profile_error_mapping 500 octoUser "500 Server Error" "m").2.2.1
      (by decide) (by decide) (by decide),
    (profile_error_mapping 200 octoUser "" "m").2.2.2 (by omega)⟩

/-- Every error produced by `validateLimit` has status 422. -/
theorem validateLimit_error_status (lp : Option Int) (e : HttpError)
    (h : validateLimit lp = .error e) : e.status = 422 := by
  cases lp with
  | none => simp [validateLimit] at h
  | some v =>
    by_cases hv : 1 ≤ v ∧ v ≤ 50 <;> simp [validateLimit, hv] at h
    simp [← h]

/-- Every error produced by the repositories handler body has status 502. -/
theorem repos_handler_error_status (include_forks : Bool) (limit : Nat)
    (u : UpstreamResult (List RawRepo)) (e : HttpError)
    (h : github_repos_handler include_forks limit u = .error e) : e.status = 502 := by
  cases u with
  | transportError msg =>
    simp [github_repos_handler] at h
    simp [← h]
  | response status body errText =>
    by_cases hr : raise_for_status_raises status = true <;>
      simp [github_repos_handler, hr] at h
    simp [← h]

/-- Counterexample to C6 as stated: upstream status 304 is a non-2xx status,
so the claim requires a 502 failure, but `raise_for_status` only raises for
400..599, so the repositories endpoint returns a success body. -/
theorem repos_status_counterexample :
    github_repos_endpoint (some 6) none (.response 304 [] "304 err") = .ok [] := by
  simp [github_repos_endpoint, validateLimit, github_repos_handler, raise_for_status_raises,
    github_repos, sorted_repos, filtered_repos, List.mergeSort]

/-- CLAIM C6 (amended): for the repositories endpoint, a transport failure
or any status in 400..599 — including 404 — yields 502 with the upstream
error text, and the endpoint never produces a 404 error: every error it
returns has status 422 (validation) or 502 (upstream). -/
theorem repos_error_mapping (include_forks : Bool) (limit : Nat) (status : Nat)
    (body : List RawRepo) (errText tmsg : String) (lp : Option Int) (fp : Option Bool)
    (u : UpstreamResult (List RawRepo)) :
    (github_repos_handler include_forks limit (.transportError tmsg)
        = .error ⟨502, "GitHub API error: " ++ tmsg⟩) ∧
    (400 ≤ status → status < 600 →
      github_repos_handler include_forks limit (.response status body errText)
        = .error ⟨502, "GitHub API error: " ++ errText⟩) ∧
    (∀ e, github_repos_endpoint lp fp u = .error e → e.status = 422 ∨ e.status = 502) := by
  refine ⟨rfl, ?_, ?_⟩
  · intro h4 h6
    simp [github_repos_handler, raise_for_status_raises, h4, h6]
  · intro e he
    unfold github_repos_endpoint at he
    cases hlp : validateLimit lp with
    | error e' =>
      rw [hlp] at he
      simp only [Except.error.injEq] at he
      subst he
      exact Or.inl (validateLimit_error_status lp e' hlp)
    | ok limit' =>
      rw [hlp] at he
      exact Or.inr (repos_handler_error_status (fp.getD false) limit' u e he)

/-- Witness for the amended C6 theorem: upstream 404 on the repositories path
maps to 502 (not 404), and a validation error carries status 422. -/
theorem repos_error_mapping_witness :
    github_repos_handler false 6 (.response 404 [] "404 Client Error")
        = .error ⟨502, "GitHub API error: " ++ "404 Client Error"⟩ ∧
    ((HttpError.mk 422 "validation error").status = 422 ∨
      (HttpError.mk 422 "validation error").status = 502) :=
  ⟨(repos_error_mapping false 6 404 [] "404 Client Error" "m" (some 6) none
      (.transportError "m")).2.1 (by decide) (by decide),
    (repos_error_mapping false 6 404 [] "404 Client Error" "m" (some 0) none
      (.transportError "m")).2.2 ⟨422, "validation error"⟩ (by simp [github_repos_endpoint, validateLimit])⟩

/-- CLAIM C8: an omitted `limit` defaults to 6; a `limit` in [1,50] is
accepted unchanged; a `limit` outside [1,50] makes the endpoint fail with a
422 validation error whose outcome is independent of the upstream — the
request is rejected before any upstream call — and is not silently clamped. -/
theorem limit_validation (v : Int) (fp : Option Bool)
    (u u' : UpstreamResult (List RawRepo)) :
    (validateLimit none = .ok 6) ∧
    (1 ≤ v → v ≤ 50 → validateLimit (some v) = .ok v.toNat) ∧
    (v < 1 ∨ 50 < v →
      github_repos_endpoint (some v) fp u = .error ⟨422, "validation error"⟩ ∧
      github_repos_endpoint (some v) fp u = github_repos_endpoint (some v) fp u') := by
  refine ⟨rfl, ?_, ?_⟩
  · intro h1 h2
    simp [validateLimit, h1, h2]
  · intro h
    have hv : ¬ (1 ≤ v ∧ v ≤ 50) := by omega
    constructor <;> simp [github_repos_endpoint, validateLimit, hv]

/-- Witness for C8: `limit = 7` is accepted as 7; `limit = 51` is rejected
with 422 even though the upstream would have answered. -/
theorem limit_validation_witness :
    validateLimit (some 7) = .ok 7 ∧
    github_repos_endpoint (some 51) none (.response 200 [] "")
        = .error ⟨422, "validation error"⟩ :=
  ⟨(limit_validation 7 none (.transportError "m") (.transportError "m")).2.1
      (by decide) (by decide),
    ((limit_validation 51 none (.response 200 [] "") (.transportError "m")).2.2
      (by decide)).1⟩

/-! ### Diagnostics endpoint claims -/

/-- Any `pySlice 50` excerpt has at most 50 characters. -/
theorem pySlice_length_le (n : Nat) (s : String) : (pySlice n s).length ≤ n :=
  List.length_take_le n s.data

/-- A concrete environment where the store probe faults. -/
def faultyEnv : TestEnv :=
  { imp := .fault "boom", urlSet := false, nameSet := true }

/-- CLAIM C7: the `/test` endpoint always returns HTTP 200 with the
diagnostics report — the handler is a total function of the environment, all
probe faults being caught — and any fault while probing is rendered as an
error excerpt bounded to 50 characters. -/
theorem test_never_fails (env : TestEnv) :
    (test_database_endpoint env = .ok (test_database env)) ∧
    (∀ db e, env.imp = .ok (some db) → db.collections = .error e →
      (test_database env).database = "⚠️  Connected but Error: " ++ pySlice 50 e ∧
      (pySlice 50 e).length ≤ 50) ∧
    (∀ msg, env.imp = .fault msg →
      (test_database env).database = "❌ Error: " ++ pySlice 50 msg ∧
      (pySlice 50 msg).length ≤ 50) := by
  refine ⟨rfl, ?_, ?_⟩
  · intro db e h1 h2
    obtain ⟨imp, us, ns⟩ := env
    simp only at h1
    subst h1
    obtain ⟨nm, cols⟩ := db
    simp only at h2
    subst h2
    exact ⟨rfl, pySlice_length_le 50 e⟩
  · intro msg h1
    obtain ⟨imp, us, ns⟩ := env
    simp only at h1
    subst h1
    exact ⟨rfl, pySlice_length_le 50 msg⟩

/-- Witness for C7 at a concrete faulting environment. -/
theorem test_never_fails_witness :
    (test_database faultyEnv).database = "❌ Error: " ++ pySlice 50 "boom" ∧
    (pySlice 50 "boom").length ≤ 50 :=
  (test_never_fails faultyEnv).2.2 "boom" rfl

/-- CLAIM C10: in every response of `/test`, `database_url` and
`database_name` equal exactly the environment-variable presence flags for
`DATABASE_URL` and `DATABASE_NAME`; the values the probe assigned to these
fields (`"✅ Configured"`, the store name) are always overwritten before the
response is returned. -/
theorem test_env_flags_overwrite (env : TestEnv) :
    (test_database env).database_url
        = some (if env.urlSet then "✅ Set" else "❌ Not Set") ∧
    (test_database env).database_name
        = some (if env.nameSet then "✅ Set" else "❌ Not Set") :=
  ⟨rfl, rfl⟩
